import Mathlib

/-!
Verification of the Indicator Metrics Engine (`src/moni.py`).

The engine's logic lives in four functions of `moni.py`:
`fetch_fred_data`, `fetch_world_bank_data`, `calculate_metrics`,
`format_change`.  We embed the data they manipulate and the decisions
they take shallowly:

* a pandas `Series` of observations becomes `List Rat` in chronological
  order (most recent last), so `iloc[-k]` is index `length - k`;
* a World-Bank record list becomes `List WBRec`, where a record's
  `value` field is `Option Rat` (`none` = JSON null);
* Python truthiness on a value (`if item['value']:`) is `pyTruthy`:
  null and exactly 0 are falsy, everything else truthy;
* network calls and exceptions are inputs of type `Except`, so a
  `try/except` block becomes a `match` on that input;
* the streamlit `@st.cache_data(ttl=3600)` decorator is not part of the
  repository's sources; the cache is modelled from the spec (§4.2).
-/

/-- A World-Bank point record `{date, value}`; `value = none` is JSON null. -/
structure WBRec where
  date : String
  value : Option Rat
deriving DecidableEq, Repr

/-- The two raw shapes `calculate_metrics` dispatches on
(`isinstance(data, pd.Series)` vs list of dicts). -/
inductive RawData where
  | series (vals : List Rat)
  | pointList (recs : List WBRec)
deriving DecidableEq, Repr

/-- Python truthiness of a `number|null` value: `None` and `0` are falsy. -/
def pyTruthy (v : Option Rat) : Bool :=
  match v with
  | none => false
  | some x => x != 0

/-- The value of `len(data)` for either raw shape. -/
def rawLen : RawData → Nat
  | .series vs => vs.length
  | .pointList rs => rs.length

/-- The metrics dict built by `calculate_metrics` (moni.py lines 124-132).
`current` is a plain value because the function returns `None` before
building the dict whenever `current is None` (line 121). -/
structure Metrics where
  current : Rat
  previous : Option Rat
  year_ago : Option Rat
  mom_change : Option Rat
  yoy_change : Option Rat
  mom_pct : Option Rat
  yoy_pct : Option Rat
deriving DecidableEq, Repr

/-- The `year_ago` loop for World-Bank data (moni.py lines 115-119):
`for item in data: if item['value']: year_ago = item['value']; break`.
It walks the list from the head and returns the first truthy value. -/
def firstTruthy : List WBRec → Option Rat
  | [] => none
  | r :: rs => if pyTruthy r.value then r.value else firstTruthy rs

/-- The `(current, previous, year_ago)` extraction of moni.py lines
107-119.  Series branch: `iloc[-1]`, `iloc[-2] if len > 1`,
`iloc[-12] if len >= 12`.  Point-list branch: index 0 and index 1
filtered through truthiness, and `firstTruthy` for `year_ago`. -/
def extractCPY : RawData → Option Rat × Option Rat × Option Rat
  | .series vals =>
      (vals[vals.length - 1]?,
       if 1 < vals.length then vals[vals.length - 2]? else none,
       if 12 ≤ vals.length then vals[vals.length - 12]? else none)
  | .pointList recs =>
      ((recs[0]?).bind (fun r => if pyTruthy r.value then r.value else none),
       if 1 < recs.length then
         (recs[1]?).bind (fun r => if pyTruthy r.value then r.value else none)
       else none,
       firstTruthy recs)

/-- The calculator `calculate_metrics` (moni.py lines 102-142).  Returns `none` when the
input is `None`, empty, or `current` comes out `None`; otherwise builds
the metrics dict.  The `if previous:` / `if year_ago:` guards are Python
truthiness, so a reference value of exactly 0 leaves the corresponding
change/pct fields `None`; the inner `if previous != 0 else 0`
(resp. `year_ago != 0`) ternary of lines 136/140 is kept verbatim even
though it sits inside the truthiness guard. -/
def calculate_metrics (data : Option RawData) : Option Metrics :=
  match data with
  | none => none
  | some d =>
    if rawLen d = 0 then none
    else
      match extractCPY d with
      | (none, _, _) => none
      | (some current, previous, year_ago) =>
        some {
          current := current
          previous := previous
          year_ago := year_ago
          mom_change :=
            match previous with
            | some p => if p = 0 then none else some (current - p)
            | none => none
          yoy_change :=
            match year_ago with
            | some y => if y = 0 then none else some (current - y)
            | none => none
          mom_pct :=
            match previous with
            | some p =>
                if p = 0 then none
                else some (if p ≠ 0 then ((current - p) / p) * 100 else 0)
            | none => none
          yoy_pct :=
            match year_ago with
            | some y =>
                if y = 0 then none
                else some (if y ≠ 0 then ((current - y) / y) * 100 else 0)
            | none => none
        }

/-- Python truthiness of the `FRED_API_KEY` string: unset (`none`) and the
empty string are falsy. -/
def strTruthy (s : Option String) : Bool :=
  match s with
  | none => false
  | some str => str ≠ ""

/-- The Series-API adapter `fetch_fred_data` (moni.py lines 69-80).  The out-of-band credential
`FRED_API_KEY` (spec §6: supplied via environment/config; it is not
defined under `src/`) is the `apiKey` argument, and the upstream call
`fred.get_series(...)` is the `getSeries` argument: `Except.error`
stands for the call raising.  `if not FRED_API_KEY: return None`, and
the surrounding `try/except Exception` turns every raised error into
`None` as well. -/
def fetch_fred_data (apiKey : Option String)
    (getSeries : Except String (List Rat)) : Option (List Rat) :=
  if strTruthy apiKey = false then none
  else
    match getSeries with
    | .error _ => none
    | .ok d => some d

/-- An HTTP response as seen by `fetch_world_bank_data`: a status code
and the result of `response.json()` (`Except.error` = the body does not
parse).  The parsed payload `[metadata, [records...]]` is modelled as a
list whose elements are record lists; only element 1 is ever consulted. -/
structure WBHttpResponse where
  status : Nat
  body : Except String (List (List WBRec))
deriving Repr

/-- The Point-List-API adapter `fetch_world_bank_data` (moni.py lines 82-100).  The whole HTTP
exchange is the `resp` argument (`Except.error` = `requests.get`
raising, e.g. a timeout).  Only a 200 status is accepted; then
`if len(data) > 1 and data[1]: return data[1]`, i.e. the second element
is returned exactly when it exists and is non-empty; every other path
returns `None`, including the `except Exception` handler. -/
def fetch_world_bank_data
    (resp : Except String WBHttpResponse) : Option (List WBRec) :=
  match resp with
  | .error _ => none
  | .ok r =>
    if r.status = 200 then
      match r.body with
      | .error _ => none
      | .ok data =>
        match data[1]? with
        | some recs => if recs.isEmpty then none else some recs
        | none => none
    else none

/-- The cache TTL: `@st.cache_data(ttl=3600)` on both adapters. -/
def TTL : Nat := 3600

/-- A cache entry: a stored result and its creation timestamp (spec §3,
"Cache Entry"). -/
structure CacheEntry (α : Type) where
  value : α
  storedAt : Nat
deriving Repr

/-- The cache's backing store: an association list from keys to entries. -/
def CacheState (κ α : Type) : Type := List (κ × CacheEntry α)

/-- Look a key up in the backing store (first binding wins). -/
def cacheLookup {κ α : Type} [DecidableEq κ] :
    CacheState κ α → κ → Option (CacheEntry α)
  | [], _ => none
  | (k, e) :: rest, key => if k = key then some e else cacheLookup rest key

/-- Modelled from the spec: the caching behaviour of
`@st.cache_data(ttl=3600)` (streamlit library code, not part of this
repository's sources), per spec §4.2: "On a cache hit whose entry age is
below the TTL, returns the stored result without invoking `fetchFn`.  On
a miss or expired entry, invokes `fetchFn`, stores the result with the
current timestamp, and returns it."  `now` is the current time in
seconds; the third component of the result counts how many times
`fetchFn` was invoked by this call (0 or 1). -/
def getOrFetch {κ α : Type} [DecidableEq κ] (now : Nat) (key : κ)
    (fetchFn : Unit → α) (s : CacheState κ α) :
    α × CacheState κ α × Nat :=
  match cacheLookup s key with
  | some e =>
    if now - e.storedAt < TTL then (e.value, s, 0)
    else
      let v := fetchFn ()
      (v, (key, ⟨v, now⟩) :: s, 1)
  | none =>
    let v := fetchFn ()
    (v, (key, ⟨v, now⟩) :: s, 1)

/-- A 13-record point list in provider-native order (most recent first),
all values present: the record "approximately twelve periods before the
current record" is index 12, with value 13. -/
def wbThirteen : List WBRec :=
  [⟨"2024-12", some 1⟩, ⟨"2024-11", some 2⟩, ⟨"2024-10", some 3⟩,
   ⟨"2024-09", some 4⟩, ⟨"2024-08", some 5⟩, ⟨"2024-07", some 6⟩,
   ⟨"2024-06", some 7⟩, ⟨"2024-05", some 8⟩, ⟨"2024-04", some 9⟩,
   ⟨"2024-03", some 10⟩, ⟨"2024-02", some 11⟩, ⟨"2024-01", some 12⟩,
   ⟨"2023-12", some 13⟩]

/-- C1: the claim says that with `previous = 0` and `current = 10` the
engine yields `mom_pct = 0` and `mom_change = 10`.  The code disagrees:
on the series `[0, 10]` it extracts `previous = 0`, but the `if previous:`
truthiness guard (moni.py line 134) is false at `0`, so `mom_change` and
`mom_pct` both stay absent — the `else 0` zero-division guard on line
136 is unreachable. -/
theorem C1_zero_previous_absent :
    (calculate_metrics (some (.series [0, 10]))).map
      (fun m => (m.current, m.previous, m.mom_change, m.mom_pct))
      = some (10, some 0, none, none) ∧
    (calculate_metrics (some (.series [0, 10]))).map (fun m => m.mom_pct)
      ≠ some (some 0) := by
  constructor
  · decide
  · decide

/-- C2: the claim says the `year_ago` scan starts about twelve periods
back.  The code's loop (moni.py lines 116-119) starts at the head of the
list, so on `wbThirteen` it stops at the very first record: `year_ago`
comes out `1` — equal to `current`, making `yoy_change = 0` — instead of
the value `13` found twelve periods back. -/
theorem C2_year_ago_from_head :
    (calculate_metrics (some (.pointList wbThirteen))).map
      (fun m => (m.current, m.year_ago, m.yoy_change))
      = some (1, some 1, some 0) ∧
    wbThirteen[12]?.map (fun r => r.value) = some (some 13) ∧
    (calculate_metrics (some (.pointList wbThirteen))).map
      (fun m => m.year_ago) ≠ some (some 13) := by
  refine ⟨?_, by decide, by decide⟩
  norm_num [wbThirteen, calculate_metrics, rawLen, extractCPY, firstTruthy,
    pyTruthy]

/-- C3 counterexample: the claim says nulls are skipped when searching
for `previous`, so on `[{v=10}, {v=null}, {v=20}]` `previous` would be
`20`.  The code (moni.py line 114) looks only at index 1: the null there
makes `previous` absent, and index 2 is never consulted. -/
theorem C3_no_null_skip_for_previous :
    (calculate_metrics
        (some (.pointList
          [⟨"2024-06", some 10⟩, ⟨"2024-05", none⟩, ⟨"2024-04", some 20⟩]))).map
      (fun m => m.previous) = some none ∧
    (calculate_metrics
        (some (.pointList
          [⟨"2024-06", some 10⟩, ⟨"2024-05", none⟩, ⟨"2024-04", some 20⟩]))).map
      (fun m => m.previous) ≠ some (some 20) := by
  refine ⟨by decide, by decide⟩

/-- C3 amended: for point-list input whose head record is truthy (so a
metrics record is produced at all), `previous` is exactly the index-1
value filtered through truthiness — no scanning past index 1, whatever
the rest of the list holds. -/
theorem C3_previous_is_index1 (r0 r1 : WBRec) (rest : List WBRec)
    (h0 : pyTruthy r0.value = true) :
    (calculate_metrics (some (.pointList (r0 :: r1 :: rest)))).map
      (fun m => m.previous)
    = some (if pyTruthy r1.value then r1.value else none) := by
  cases hr : r0.value with
  | none => simp [pyTruthy, hr] at h0
  | some v =>
    have h0v : pyTruthy (some v) = true := hr ▸ h0
    simp [calculate_metrics, rawLen, extractCPY, hr, h0v]

/-- C3 witness: the amended rule applied to the counterexample list —
the null at index 1 yields an absent `previous`. -/
theorem C3_previous_is_index1_witness :
    (calculate_metrics
        (some (.pointList
          [⟨"2024-06", some 10⟩, ⟨"2024-05", none⟩, ⟨"2024-04", some 20⟩]))).map
      (fun m => m.previous) = some none := by
  simpa using
    C3_previous_is_index1 ⟨"2024-06", some 10⟩ ⟨"2024-05", none⟩
      [⟨"2024-04", some 20⟩] (by decide)

/-- C4: `calculate_metrics` returns `none` (never a partial record) on a
`None` input, an empty series, an empty point list, the Scenario B list
(null at index 0 — `current` is taken strictly from index 0, not scanned
forward), and in general on any point list whose head value is null. -/
theorem C4_absent_inputs :
    calculate_metrics none = none ∧
    calculate_metrics (some (.series [])) = none ∧
    calculate_metrics (some (.pointList [])) = none ∧
    calculate_metrics
      (some (.pointList
        [⟨"2024-06", none⟩, ⟨"2024-05", some 50⟩, ⟨"2023-05", some 45⟩]))
      = none ∧
    (∀ (d : String) (rest : List WBRec),
      calculate_metrics (some (.pointList (⟨d, none⟩ :: rest))) = none) := by
  refine ⟨by decide, by decide, by decide, by decide, ?_⟩
  intro d rest
  simp [calculate_metrics, rawLen, extractCPY, pyTruthy]

/-- C9: for point-list input whose head value is present and non-zero,
the `year_ago` loop (starting at the head) stops immediately, so
`year_ago = current`, hence `yoy_change = 0` and `yoy_pct = 0`. -/
theorem C9_pointlist_yoy_always_zero (d : String) (v : Rat)
    (rest : List WBRec) (hv : v ≠ 0) :
    (calculate_metrics (some (.pointList (⟨d, some v⟩ :: rest)))).map
      (fun m => (m.current, m.year_ago, m.yoy_change, m.yoy_pct))
    = some (v, some v, some 0, some 0) := by
  simp [calculate_metrics, rawLen, extractCPY, firstTruthy, pyTruthy, hv,
    sub_self]

/-- C9 witness: a concrete two-record list with head value 5: `year_ago`
equals `current` and both YoY fields are 0. -/
theorem C9_pointlist_yoy_always_zero_witness :
    (calculate_metrics
        (some (.pointList [⟨"2024", some 5⟩, ⟨"2023", some 9⟩]))).map
      (fun m => (m.current, m.year_ago, m.yoy_change, m.yoy_pct))
    = some (5, some 5, some 0, some 0) :=
  C9_pointlist_yoy_always_zero "2024" 5 [⟨"2023", some 9⟩] (by norm_num)

/-- C5: for series-shaped input (most recent last, so the most-recent
view of the data is `l.reverse`), `current` is the most recent entry,
`previous` is the second most recent when more than one entry exists,
and `year_ago` is the 12th most recent exactly when the series has at
least 12 entries, else absent. -/
theorem C5_series_positions (l : List Rat) (hne : l ≠ []) :
    (calculate_metrics (some (.series l))).map
      (fun m => (some m.current, m.previous, m.year_ago))
    = some (l.reverse[0]?,
        if 1 < l.length then l.reverse[1]? else none,
        if 12 ≤ l.length then l.reverse[11]? else none) := by
  have hpos : 0 < l.length := List.length_pos.mpr hne
  have hlen : ¬ l.length = 0 := by omega
  rcases e : l[l.length - 1]? with _ | c
  · rw [List.getElem?_eq_none_iff] at e; omega
  · simp only [calculate_metrics, rawLen, extractCPY, hlen, if_false, e,
      Option.map_some', Option.some.injEq, Prod.mk.injEq]
    refine ⟨?_, ?_, ?_⟩
    · rw [List.getElem?_reverse hpos]
      simpa using e.symm
    · split
      · next h1 =>
        rw [List.getElem?_reverse (by omega : 1 < l.length)]
        congr 1
      · rfl
    · split
      · next h12 =>
        rw [List.getElem?_reverse (by omega : 11 < l.length)]
        congr 1
      · rfl

/-- C5 witness: a concrete 13-entry series (Scenario A shape):
`current = 130` (last), `previous = 127` (second-to-last), and
`year_ago = 102`, the 12th most-recent entry. -/
theorem C5_series_positions_witness :
    (calculate_metrics
        (some (.series
          [100, 102, 105, 107, 109, 111, 113, 115, 118, 121, 124, 127,
           130]))).map
      (fun m => (some m.current, m.previous, m.year_ago))
    = some (some 130, some 127, some 102) := by
  have h := C5_series_positions
    [100, 102, 105, 107, 109, 111, 113, 115, 118, 121, 124, 127, 130]
    (by decide)
  rw [h]
  decide

/-- C10: a value of exactly 0 is handled like an absent value by the
truthiness guards: a head record with value 0 makes the whole record
absent; a `previous` of 0 leaves `mom_change`/`mom_pct` absent; a
`year_ago` of 0 leaves `yoy_change`/`yoy_pct` absent. -/
theorem C10_zero_treated_as_absent :
    (∀ (d : String) (rest : List WBRec),
      calculate_metrics (some (.pointList (⟨d, some 0⟩ :: rest))) = none) ∧
    (∀ l : List Rat, 1 < l.length → l[l.length - 2]? = some 0 →
      (calculate_metrics (some (.series l))).map
        (fun m => (m.previous, m.mom_change, m.mom_pct))
      = some (some 0, none, none)) ∧
    (∀ l : List Rat, 12 ≤ l.length → l[l.length - 12]? = some 0 →
      (calculate_metrics (some (.series l))).map
        (fun m => (m.year_ago, m.yoy_change, m.yoy_pct))
      = some (some 0, none, none)) := by
  refine ⟨?_, ?_, ?_⟩
  · intro d rest
    simp [calculate_metrics, rawLen, extractCPY, pyTruthy]
  · intro l h1 h2
    have hlen : ¬ l.length = 0 := by omega
    rcases e : l[l.length - 1]? with _ | c
    · rw [List.getElem?_eq_none_iff] at e; omega
    · simp [calculate_metrics, rawLen, extractCPY, hlen, e, h1, h2]
  · intro l h12 h2
    have hlen : ¬ l.length = 0 := by omega
    rcases e : l[l.length - 1]? with _ | c
    · rw [List.getElem?_eq_none_iff] at e; omega
    · simp [calculate_metrics, rawLen, extractCPY, hlen, e, h12, h2]

/-- C10 witness: head value 0 kills the point-list record; series
`[0, 10]` has `previous = 0` and absent MoM fields; a 12-entry series
starting at 0 has `year_ago = 0` and absent YoY fields. -/
theorem C10_zero_treated_as_absent_witness :
    calculate_metrics
      (some (.pointList [⟨"2024", some 0⟩, ⟨"2023", some 7⟩])) = none ∧
    (calculate_metrics (some (.series [0, 10]))).map
      (fun m => (m.previous, m.mom_change, m.mom_pct))
      = some (some 0, none, none) ∧
    (calculate_metrics
        (some (.series [0, 1, 2, 3, 4, 5, 6, 7, 8, 9, 10, 11]))).map
      (fun m => (m.year_ago, m.yoy_change, m.yoy_pct))
      = some (some 0, none, none) :=
  ⟨C10_zero_treated_as_absent.1 "2024" [⟨"2023", some 7⟩],
   C10_zero_treated_as_absent.2.1 [0, 10] (by decide) (by decide),
   C10_zero_treated_as_absent.2.2 [0, 1, 2, 3, 4, 5, 6, 7, 8, 9, 10, 11]
     (by decide) (by decide)⟩

/-- C6: the Series-API adapter returns `none` when the credential is
falsy (unset or empty) and when the upstream call raises; the `Option`
codomain records that no exception escapes. -/
theorem C6_fred_degrades_to_none (apiKey : Option String)
    (getSeries : Except String (List Rat)) :
    (strTruthy apiKey = false → fetch_fred_data apiKey getSeries = none) ∧
    (∀ e, getSeries = .error e → fetch_fred_data apiKey getSeries = none) := by
  constructor
  · intro h
    simp [fetch_fred_data, h]
  · intro e he
    subst he
    by_cases h : strTruthy apiKey = false <;> simp [fetch_fred_data, h]

/-- C6 witness: an unset key and a raising upstream call both yield
`none`. -/
theorem C6_fred_degrades_to_none_witness :
    fetch_fred_data none (.ok [1]) = none ∧
    fetch_fred_data (some "key") (.error "timeout") = none :=
  ⟨(C6_fred_degrades_to_none none (.ok [1])).1 rfl,
   (C6_fred_degrades_to_none (some "key") (.error "timeout")).2
     "timeout" rfl⟩

/-- C7: the Point-List-API adapter yields data only from a 200 response
whose parsed body has a present, non-empty second element (and then
yields exactly that element); a raised exception, a non-200 status, an
unparsable body, a short array, or an empty second element all yield
`none`. -/
theorem C7_world_bank_gating (resp : Except String WBHttpResponse) :
    (∀ e, resp = .error e → fetch_world_bank_data resp = none) ∧
    (∀ r, resp = .ok r → ¬ r.status = 200 →
      fetch_world_bank_data resp = none) ∧
    (∀ r e, resp = .ok r → r.body = .error e →
      fetch_world_bank_data resp = none) ∧
    (∀ r data, resp = .ok r → r.body = .ok data → data[1]? = none →
      fetch_world_bank_data resp = none) ∧
    (∀ r data, resp = .ok r → r.body = .ok data → data[1]? = some [] →
      fetch_world_bank_data resp = none) ∧
    (∀ r data recs, resp = .ok r → r.status = 200 → r.body = .ok data →
      data[1]? = some recs → recs ≠ [] →
      fetch_world_bank_data resp = some recs) := by
  refine ⟨?_, ?_, ?_, ?_, ?_, ?_⟩
  · rintro e rfl
    rfl
  · rintro r rfl h
    simp [fetch_world_bank_data, h]
  · rintro r e rfl hb
    simp [fetch_world_bank_data, hb]
  · rintro r data rfl hb h1
    simp [fetch_world_bank_data, hb, h1]
  · rintro r data rfl hb h1
    simp [fetch_world_bank_data, hb, h1]
  · rintro r data recs rfl hs hb h1 hne
    obtain ⟨a, t, rfl⟩ := List.exists_cons_of_ne_nil hne
    simp [fetch_world_bank_data, hs, hb, h1]

/-- C7 witness: a timeout, a 404, and a well-formed 200 response with a
one-record second element. -/
theorem C7_world_bank_gating_witness :
    fetch_world_bank_data (.error "timeout") = none ∧
    fetch_world_bank_data (.ok ⟨404, .ok [[], []]⟩) = none ∧
    fetch_world_bank_data (.ok ⟨200, .ok [[], [⟨"2023", some 45⟩]]⟩)
      = some [⟨"2023", some 45⟩] :=
  ⟨(C7_world_bank_gating (.error "timeout")).1 "timeout" rfl,
   (C7_world_bank_gating (.ok ⟨404, .ok [[], []]⟩)).2.1
     ⟨404, .ok [[], []]⟩ rfl (by decide),
   (C7_world_bank_gating (.ok ⟨200, .ok [[], [⟨"2023", some 45⟩]]⟩)).2.2.2.2.2
     ⟨200, .ok [[], [⟨"2023", some 45⟩]]⟩ [[], [⟨"2023", some 45⟩]]
     [⟨"2023", some 45⟩] rfl rfl rfl rfl (by decide)⟩

/-- C8: two sequential `getOrFetch` calls on the same key, the second
issued within the TTL window of the first, invoke the underlying fetch
function at most once in total. -/
theorem C8_cache_at_most_one_fetch {κ α : Type} [DecidableEq κ]
    (s : CacheState κ α) (key : κ) (f g : Unit → α) (t0 t1 : Nat)
    (hseq : t0 ≤ t1) (hwin : t1 - t0 < TTL) :
    (getOrFetch t0 key f s).2.2
      + (getOrFetch t1 key g (getOrFetch t0 key f s).2.1).2.2 ≤ 1 := by
  rcases hl : cacheLookup s key with _ | e
  · simp [getOrFetch, hl, cacheLookup, hwin]
  · by_cases ht : t0 - e.storedAt < TTL
    · simp only [getOrFetch, hl, ht, if_true]
      split <;> simp
    · simp [getOrFetch, hl, ht, cacheLookup, hwin]

/-- C8 witness: an empty cache, one key, calls at times 0 and 10:
the first call fetches, the second hits, total one fetch. -/
theorem C8_cache_at_most_one_fetch_witness :
    (getOrFetch 0 (0 : Nat) (fun _ => (7 : Nat))
        ([] : CacheState Nat Nat)).2.2
      + (getOrFetch 10 0 (fun _ => (8 : Nat))
          (getOrFetch 0 0 (fun _ => (7 : Nat))
            ([] : CacheState Nat Nat)).2.1).2.2 ≤ 1 :=
  C8_cache_at_most_one_fetch [] 0 (fun _ => 7) (fun _ => 8) 0 10
    (by decide) (by decide)
